import Mathlib

/-!
Verification of the FeatherDB query-construction core (the "most capable
variant" of `src/index.ts`: the second `Table` implementation and its
`buildOpts` helper, identical to the `buildOpts` of `src/unnamed/part_002`).

The TypeScript is embedded shallowly:
* JS template-literal string building becomes explicit `String` append;
* `Array.prototype.map((x, i) => ...)` with its index argument becomes
  `mapWithIndex`, which threads the index explicitly;
* `Array.prototype.join(sep)` becomes `joinSep sep` (`join('')` is `joinAll`);
* a JS value that may be `undefined` becomes an `Option`;
* JS truthiness checks are translated at their use sites: an array is always
  truthy (even `[]`), a number is truthy iff it is nonzero, a string is
  truthy iff it is nonempty;
* code that `throw`s is embedded in `Except String`.
-/

namespace FeatherDB

/-- Scalar SQL binding values (the `SQLTypes` of the source: the values that
can be pushed into the parameter list). -/
inductive SQLValue where
  | int (n : Int)
  | str (s : String)
  | bool (b : Bool)
deriving DecidableEq

/-- Value of a `WhereObject`: the source type is `T[] | T`, discriminated at
runtime with `Array.isArray`. -/
inductive WhereValue where
  | arr (items : List SQLValue)
  | scalar (v : SQLValue)
deriving DecidableEq

/-- Embeds `WhereObject<T> = { value: T[] | T, type: '=' | '>' | '<' | '>=' | '<=' | '!=' }`.
The comparator is kept as the literal string the source would interpolate. -/
structure WhereObject where
  value : WhereValue
  type : String
deriving DecidableEq

/-- Embeds `Where<T> = { column: keyof Partial<T> & string, opt: WhereObject<T[keyof T]> | undefined }`. -/
structure WhereCond where
  column : String
  opt : Option WhereObject
deriving DecidableEq

/-- Embeds `GetOptions<T> = { where?: Where<T>[]; limit?: number; orderBy?: OrderBy<T> }`.
`orderBy` is a mapping iterated with `Object.entries`, so it is embedded as
an association list in iteration order; directions are the literal strings. -/
structure GetOptions where
  whereConds : Option (List WhereCond) := none
  limit : Option Int := none
  orderBy : Option (List (String × String)) := none
deriving DecidableEq

/-- Embeds `Array.prototype.join(sep)`: empty array gives `""`, otherwise the
elements with `sep` between consecutive elements. -/
def joinSep (sep : String) : List String → String
  | [] => ""
  | [s] => s
  | s :: rest => s ++ sep ++ joinSep sep rest

/-- Embeds `Array.prototype.join('')`. -/
def joinAll : List String → String
  | [] => ""
  | s :: rest => s ++ joinAll rest

/-- The fragment one condition contributes inside `buildOpts`'s
`opts.where.map((option, i) => ...)` callback. `n` is
`Object.keys(opts.where).length` (the length of the condition list), `i` the
index `map` supplies. A skipped condition (`if (!option.opt) return`)
returns `undefined`, which `join('')` renders as the empty string. -/
def condFrag (n i : Nat) (c : WhereCond) : String :=
  match c.opt with
  | none => ""
  | some o =>
    match o.value with
    | .arr items =>
      " (" ++ joinSep " OR " (items.map fun _ => c.column ++ " " ++ o.type ++ " ?") ++ ")"
    | .scalar _ =>
      " " ++ c.column ++ " " ++ o.type ++ " ?" ++ (if i < n - 1 then " AND" else "")

/-- The values one condition pushes into `values` while its fragment is
built: nothing for a skipped condition, every element in order for a
sequence value, the single scalar otherwise. -/
def condValues (c : WhereCond) : List SQLValue :=
  match c.opt with
  | none => []
  | some o =>
    match o.value with
    | .arr items => items
    | .scalar v => [v]

/-- Embeds the `map((option, i) => ...)` pass of `buildOpts`: each condition's
fragment, with the index threaded through. -/
def mapWithIndex (n : Nat) : Nat → List WhereCond → List String
  | _, [] => []
  | i, c :: rest => condFrag n i c :: mapWithIndex n (i + 1) rest

/-- The values pushed by the whole `map` pass, in push order. -/
def condsValues : List WhereCond → List SQLValue
  | [] => []
  | c :: rest => condValues c ++ condsValues rest

/-- Embeds the `ORDER BY` part:
`` ` ORDER BY ${Object.entries(opts.orderBy).map(item => `${item[0]}${item[1] ? ` ${item[1]}` : ''}`)}` ``.
Interpolating the mapped array into the template joins it with `","`; a
falsy (empty) direction string is omitted. -/
def orderFrag (ob : List (String × String)) : String :=
  " ORDER BY " ++ joinSep "," (ob.map fun it => it.1 ++ (if it.2 = "" then "" else " " ++ it.2))

/-- Result of `buildOpts`: the SQL fragment and the ordered parameter list. -/
structure BuiltOpts where
  builtQuery : String
  values : List SQLValue
deriving DecidableEq

/-- Embeds `buildOpts` (src/index.ts:189-210, src/unnamed/part_002:28-49).
`opts?.where` is truthy exactly when the list is present (a JS array,
even empty, is truthy); `opts?.limit` is truthy exactly when present and
nonzero; `opts?.orderBy` is truthy exactly when present. -/
def buildOpts (opts : Option GetOptions) : BuiltOpts :=
  { builtQuery :=
      (match opts.bind GetOptions.whereConds with
       | none => ""
       | some conds => " WHERE" ++ joinAll (mapWithIndex conds.length 0 conds)) ++
      (match opts.bind GetOptions.orderBy with
       | none => ""
       | some ob => orderFrag ob) ++
      (match opts.bind GetOptions.limit with
       | none => ""
       | some k => if k = 0 then "" else " LIMIT " ++ toString k),
    values :=
      match opts.bind GetOptions.whereConds with
      | none => []
      | some conds => condsValues conds }

/-- Annotated view of the emitted SQL: the fragment as a list of tokens in
which every placeholder the builder emits is a `hole` carrying the value
pushed for it, and all other emitted text is opaque `text`. Rendering a
token list (holes become the literal `"?"`) recovers the SQL fragment, and
collecting the hole values in order recovers the parameter list; this is the
formal sense in which the i-th placeholder corresponds to the i-th value. -/
inductive QueryTok where
  | text (s : String)
  | hole (v : SQLValue)
deriving DecidableEq

/-- Render one token: a hole is the placeholder character. -/
def QueryTok.render : QueryTok → String
  | .text s => s
  | .hole _ => "?"

/-- Render a token list to the SQL text it denotes. -/
def renderToks : List QueryTok → String
  | [] => ""
  | t :: ts => t.render ++ renderToks ts

/-- The values carried by the holes of a token list, in order. -/
def toksValues : List QueryTok → List SQLValue
  | [] => []
  | .hole v :: ts => v :: toksValues ts
  | .text _ :: ts => toksValues ts

/-- Number of placeholder holes in a token list. -/
def holeCount : List QueryTok → Nat
  | [] => 0
  | .hole _ :: ts => holeCount ts + 1
  | .text _ :: ts => holeCount ts

/-- Token-level `Array.prototype.join(sep)`. -/
def joinSepToks (sep : String) : List (List QueryTok) → List QueryTok
  | [] => []
  | [t] => t
  | t :: ts => t ++ [QueryTok.text sep] ++ joinSepToks sep ts

/-- Token-level mirror of `condFrag`: the same emission with each `?` kept
together with the value pushed for it. -/
def condToks (n i : Nat) (c : WhereCond) : List QueryTok :=
  match c.opt with
  | none => []
  | some o =>
    match o.value with
    | .arr items =>
      QueryTok.text " (" ::
        (joinSepToks " OR " (items.map fun v =>
          [QueryTok.text (c.column ++ " " ++ o.type ++ " "), QueryTok.hole v]) ++
         [QueryTok.text ")"])
    | .scalar v =>
      [QueryTok.text (" " ++ c.column ++ " " ++ o.type ++ " "), QueryTok.hole v,
       QueryTok.text (if i < n - 1 then " AND" else "")]

/-- Token-level mirror of the indexed `map` pass over the condition list. -/
def condsToks (n : Nat) : Nat → List WhereCond → List QueryTok
  | _, [] => []
  | i, c :: rest => condToks n i c ++ condsToks n (i + 1) rest

/-- Token-level mirror of `buildOpts`: ORDER BY and LIMIT contribute only
text (the builder binds no values for them). -/
def buildToks (opts : Option GetOptions) : List QueryTok :=
  (match opts.bind GetOptions.whereConds with
   | none => []
   | some conds => QueryTok.text " WHERE" :: condsToks conds.length 0 conds) ++
  (match opts.bind GetOptions.orderBy with
   | none => []
   | some ob => [QueryTok.text (orderFrag ob)]) ++
  (match opts.bind GetOptions.limit with
   | none => []
   | some k => [QueryTok.text (if k = 0 then "" else " LIMIT " ++ toString k)])

/-- Schema restriction of a condition list, following the spec's words:
"Input conditions are filtered to only those whose `column` is a declared
Schema column". Modelled from the spec for comparison with the source's
`buildOpts`, which performs no such filtering. -/
def declaredOnly (defn : List String) (conds : List WhereCond) : List WhereCond :=
  conds.filter fun c => defn.contains c.column

/-- Embeds `Table.update` of the most capable variant (src/index.ts:291-304).
The schema definition is its column-name list (`key in this.schema.definition`
tests key membership); the result is either the thrown error message or the
`(query, params)` pair handed to the engine (`run`/`prepare(...).run`). -/
def update (defn : List String) (name : String)
    (partialRow : List (String × SQLValue)) (opts : Option GetOptions) :
    Except String (String × List SQLValue) :=
  if partialRow.length = 0 then
    .error "Update requires at least one field to update"
  else
    let updateFields :=
      joinSep ", " ((partialRow.filter fun kv => defn.contains kv.1).map fun kv => kv.1 ++ " = ?")
    let b := buildOpts opts
    let query := "UPDATE " ++ name ++ " SET " ++ updateFields ++ " " ++ b.builtQuery
    let updateValues := (partialRow.filter fun kv => defn.contains kv.1).map fun kv => kv.2
    .ok (query, updateValues ++ b.values)

/-- Embeds the result extraction of `Table.count` on the direct-execution
backend (src/index.ts:289):
`(this.db.query(query).all(...values)[0] as { count: number }).count ?? 0`.
The engine's reply is the row list; a row is its `count` field, possibly
null. Indexing `[0]` on an empty reply yields `undefined`, and reading
`.count` from `undefined` throws a `TypeError` before the `?? 0` default can
apply; the default only covers a present row whose `count` field is nullish. -/
def countFromRows (rows : List (Option Int)) : Except String Int :=
  match rows with
  | [] => .error "TypeError: cannot read count of undefined"
  | r :: _ => .ok (r.getD 0)

/-- The query and parameters `Table.count` sends to the engine
(src/index.ts:284-286): `buildOpts({ where })` under `SELECT COUNT(*)`. -/
def countQuery (name : String) (wc : Option (List WhereCond)) : String × List SQLValue :=
  let b := buildOpts (some { whereConds := wc })
  ("SELECT COUNT(*) as count FROM " ++ name ++ b.builtQuery, b.values)

/-- The atom a scalar-valued condition contributes, without its leading
space and without any `AND` continuation: `<column> <operator> ?`. -/
def scalarAtom (c : WhereCond) : String :=
  c.column ++ " " ++ (match c.opt with | some o => o.type | none => "") ++ " ?"

theorem renderToks_append (a b : List QueryTok) :
    renderToks (a ++ b) = renderToks a ++ renderToks b := by
  induction a with
  | nil => simp [renderToks, String.empty_append]
  | cons t ts ih => simp [renderToks, ih, String.append_assoc]

theorem toksValues_append (a b : List QueryTok) :
    toksValues (a ++ b) = toksValues a ++ toksValues b := by
  induction a with
  | nil => rfl
  | cons t ts ih => cases t <;> simp [toksValues, ih]

theorem holeCount_eq_length (ts : List QueryTok) :
    holeCount ts = (toksValues ts).length := by
  induction ts with
  | nil => rfl
  | cons t ts ih => cases t <;> simp [holeCount, toksValues, ih]

theorem space_q_append (x y : String) : x ++ " " ++ ("?" ++ y) = x ++ " ?" ++ y := by
  rw [String.append_assoc, ← String.append_assoc " " "?" y,
    show (" " : String) ++ "?" = " ?" by decide, ← String.append_assoc]

theorem space_q_fold (x : String) : x ++ " " ++ "?" = x ++ " ?" := by
  rw [String.append_assoc, show (" " : String) ++ "?" = " ?" by decide]

theorem renderToks_orGroup (s : String) (items : List SQLValue) :
    renderToks (joinSepToks " OR " (items.map fun v => [QueryTok.text s, QueryTok.hole v]))
      = joinSep " OR " (items.map fun _ => s ++ "?") := by
  induction items with
  | nil => rfl
  | cons v rest ih =>
    cases rest with
    | nil => simp [joinSepToks, joinSep, renderToks, QueryTok.render, String.append_empty]
    | cons v2 rest2 =>
      simp only [List.map_cons, joinSepToks, joinSep] at ih ⊢
      rw [renderToks_append, renderToks_append, ih]
      simp [renderToks, QueryTok.render, String.append_empty, String.append_assoc]

theorem toksValues_orGroup (s : String) (items : List SQLValue) :
    toksValues (joinSepToks " OR " (items.map fun v => [QueryTok.text s, QueryTok.hole v]))
      = items := by
  induction items with
  | nil => rfl
  | cons v rest ih =>
    cases rest with
    | nil => rfl
    | cons v2 rest2 =>
      simp only [List.map_cons, joinSepToks] at ih ⊢
      rw [toksValues_append, toksValues_append, ih]
      rfl

theorem renderToks_condToks (n i : Nat) (c : WhereCond) :
    renderToks (condToks n i c) = condFrag n i c := by
  rcases c with ⟨col, _ | ⟨val, ty⟩⟩
  · rfl
  rcases val with items | v
  · simp only [condToks, condFrag, renderToks, QueryTok.render]
    rw [renderToks_append, renderToks_orGroup]
    simp only [space_q_fold, renderToks, QueryTok.render, String.append_empty,
      ← String.append_assoc]
  · simp only [condToks, condFrag, renderToks, QueryTok.render]
    rw [String.append_empty]
    exact space_q_append (" " ++ col ++ " " ++ ty) _

theorem toksValues_condToks (n i : Nat) (c : WhereCond) :
    toksValues (condToks n i c) = condValues c := by
  rcases c with ⟨col, _ | ⟨val, ty⟩⟩
  · rfl
  rcases val with items | v
  · simp only [condToks, condValues, toksValues]
    rw [toksValues_append, toksValues_orGroup]
    simp [toksValues]
  · rfl

theorem renderToks_condsToks (n : Nat) (l : List WhereCond) :
    ∀ i, renderToks (condsToks n i l) = joinAll (mapWithIndex n i l) := by
  induction l with
  | nil => intro i; rfl
  | cons c rest ih =>
    intro i
    simp only [condsToks, mapWithIndex, joinAll]
    rw [renderToks_append, renderToks_condToks, ih]

theorem toksValues_condsToks (n : Nat) (l : List WhereCond) :
    ∀ i, toksValues (condsToks n i l) = condsValues l := by
  induction l with
  | nil => intro i; rfl
  | cons c rest ih =>
    intro i
    simp only [condsToks, condsValues]
    rw [toksValues_append, toksValues_condToks, ih]

theorem joinAll_append (a b : List String) :
    joinAll (a ++ b) = joinAll a ++ joinAll b := by
  induction a with
  | nil => simp [joinAll, String.empty_append]
  | cons s rest ih => simp [joinAll, ih, String.append_assoc]

theorem condsValues_append (a b : List WhereCond) :
    condsValues (a ++ b) = condsValues a ++ condsValues b := by
  induction a with
  | nil => rfl
  | cons c rest ih => simp [condsValues, ih]

theorem mapWithIndex_append (n : Nat) (a b : List WhereCond) :
    ∀ i, mapWithIndex n i (a ++ b) = mapWithIndex n i a ++ mapWithIndex n (i + a.length) b := by
  induction a with
  | nil => intro i; rfl
  | cons c rest ih =>
    intro i
    simp only [List.cons_append, mapWithIndex, List.length_cons, List.append_eq, ih (i + 1)]
    have hidx : i + 1 + rest.length = i + (rest.length + 1) := by omega
    rw [hidx]

theorem condFrag_congr {n n' i i' : Nat} (h : i < n - 1 ↔ i' < n' - 1) (c : WhereCond) :
    condFrag n i c = condFrag n' i' c := by
  rcases c with ⟨col, _ | ⟨val, ty⟩⟩
  · rfl
  rcases val with items | v
  · rfl
  · simp only [condFrag]
    by_cases hi : i < n - 1
    · rw [if_pos hi, if_pos (h.mp hi)]
    · rw [if_neg hi, if_neg (fun hx => hi (h.mpr hx))]

theorem mapWithIndex_congr {n n' : Nat} (l : List WhereCond) :
    ∀ i i', (∀ k, k < l.length → (i + k < n - 1 ↔ i' + k < n' - 1)) →
      mapWithIndex n i l = mapWithIndex n' i' l := by
  induction l with
  | nil => intro i i' _; rfl
  | cons c rest ih =>
    intro i i' h
    simp only [mapWithIndex]
    have h0 : i < n - 1 ↔ i' < n' - 1 := by simpa using h 0 (by simp)
    have hrest : ∀ k, k < rest.length → (i + 1 + k < n - 1 ↔ i' + 1 + k < n' - 1) := by
      intro k hk
      have hk1 := h (k + 1) (by simpa using Nat.succ_lt_succ hk)
      omega
    rw [condFrag_congr h0, ih (i + 1) (i' + 1) hrest]

theorem and_space_append (x y : String) : x ++ " AND" ++ (" " ++ y) = x ++ " AND " ++ y := by
  rw [String.append_assoc, ← String.append_assoc " AND" " " y,
    show (" AND" : String) ++ " " = " AND " by decide, ← String.append_assoc]

/-- C1: for every query-options value, the SQL fragment `buildOpts` produces
is the rendering of a token list in which every placeholder is a hole paired
with the value bound at it, the values carried by the holes (in order) are
exactly the returned parameter list, and hence the number of placeholders
the builder emits equals the number of parameter values pushed, with the
i-th placeholder corresponding to the i-th value. -/
theorem buildOpts_placeholder_param_correspondence (opts : Option GetOptions) :
    renderToks (buildToks opts) = (buildOpts opts).builtQuery ∧
    toksValues (buildToks opts) = (buildOpts opts).values ∧
    holeCount (buildToks opts) = (buildOpts opts).values.length := by
  have hv : toksValues (buildToks opts) = (buildOpts opts).values := by
    simp only [buildToks, buildOpts]
    rcases hw : opts.bind GetOptions.whereConds with _ | conds <;>
      rcases ho : opts.bind GetOptions.orderBy with _ | ob <;>
        rcases hl : opts.bind GetOptions.limit with _ | k <;>
          simp [toksValues_append, toksValues, toksValues_condsToks]
  refine ⟨?_, hv, ?_⟩
  · simp only [buildToks, buildOpts]
    rcases hw : opts.bind GetOptions.whereConds with _ | conds <;>
      rcases ho : opts.bind GetOptions.orderBy with _ | ob <;>
        rcases hl : opts.bind GetOptions.limit with _ | k <;>
          simp [renderToks_append, renderToks, QueryTok.render, renderToks_condsToks,
            String.append_empty, String.empty_append, String.append_assoc]
  · rw [holeCount_eq_length, hv]

/-- C4 exhibit: the source treats an explicitly supplied empty condition
list as truthy (a JS array is truthy even when empty), so `buildOpts`
emits the bare keyword fragment `" WHERE"` — malformed SQL — instead of
omitting the clause; only an absent list produces no WHERE at all. -/
theorem buildOpts_empty_where_list_bare_where :
    buildOpts (some { whereConds := some [] }) = { builtQuery := " WHERE", values := [] } ∧
    buildOpts (some ({} : GetOptions)) = { builtQuery := "", values := [] } := by
  decide

/-- C9 exhibit: the direct-execution path of `Table.count` dereferences
`rows[0].count` with no guard, so an empty engine reply raises a TypeError
instead of returning 0; the `?? 0` default only covers a present first row
whose count field is nullish. -/
theorem count_no_row_type_error :
    countFromRows [] = Except.error "TypeError: cannot read count of undefined" ∧
    countFromRows [some 7] = Except.ok 7 ∧
    countFromRows [none] = Except.ok 0 :=
  ⟨rfl, rfl, rfl⟩

/-- C7: `update` called with an empty set-fields mapping fails with the
invalid-argument error for every options value (and every schema and table
name), before any SQL text or parameter list is produced. -/
theorem update_empty_fields_error (defn : List String) (name : String)
    (opts : Option GetOptions) :
    update defn name [] opts = Except.error "Update requires at least one field to update" :=
  rfl

/-- C6: a condition whose value is a sequence of N scalars contributes one
parenthesized group whose atoms `<column> <operator> ?` are joined by OR,
pushes exactly the N element values in element order, and its token-level
emission carries exactly N placeholder holes whose values are the elements
in order. -/
theorem buildOpts_sequence_value_group (col ty : String) (items : List SQLValue) (n i : Nat) :
    condFrag n i ⟨col, some ⟨WhereValue.arr items, ty⟩⟩ =
      " (" ++ joinSep " OR " (items.map fun _ => col ++ " " ++ ty ++ " ?") ++ ")" ∧
    condValues ⟨col, some ⟨WhereValue.arr items, ty⟩⟩ = items ∧
    toksValues (condToks n i ⟨col, some ⟨WhereValue.arr items, ty⟩⟩) = items ∧
    holeCount (condToks n i ⟨col, some ⟨WhereValue.arr items, ty⟩⟩) = items.length := by
  refine ⟨rfl, rfl, ?_, ?_⟩
  · simpa [condValues] using toksValues_condToks n i ⟨col, some ⟨WhereValue.arr items, ty⟩⟩
  · rw [holeCount_eq_length, toksValues_condToks]
    rfl

/-- C2 counterexample: a condition on the column `nope`, undeclared in the
schema `["id"]`, is not dropped: `buildOpts` emits it (the undeclared name
appears in the SQL) and its output differs from the build over the
spec-mandated restriction to declared columns. -/
theorem buildOpts_undeclared_column_kept_cex :
    buildOpts (some { whereConds := some [⟨"nope", some ⟨WhereValue.scalar (SQLValue.int 1), "="⟩⟩] }) ≠ buildOpts (some { whereConds := some (declaredOnly ["id"] [⟨"nope", some ⟨WhereValue.scalar (SQLValue.int 1), "="⟩⟩]) }) ∧
    (buildOpts (some { whereConds := some [⟨"nope", some ⟨WhereValue.scalar (SQLValue.int 1), "="⟩⟩] })).builtQuery = " WHERE nope = ?" := by
  decide

/-- C3 counterexample: with a sequence-valued condition followed by a
scalar one (both retained), the fragments are concatenated without any AND
between them — the claimed AND-conjunction is not produced. -/
theorem buildOpts_array_then_scalar_missing_and_cex :
    (buildOpts (some { whereConds := some [⟨"a", some ⟨WhereValue.arr [SQLValue.int 1, SQLValue.int 2], "="⟩⟩, ⟨"b", some ⟨WhereValue.scalar (SQLValue.int 3), "="⟩⟩] })).builtQuery = " WHERE (a = ? OR a = ?) b = ?" ∧
    (buildOpts (some { whereConds := some [⟨"a", some ⟨WhereValue.arr [SQLValue.int 1, SQLValue.int 2], "="⟩⟩, ⟨"b", some ⟨WhereValue.scalar (SQLValue.int 3), "="⟩⟩] })).builtQuery ≠ " WHERE (a = ? OR a = ?) AND b = ?" := by
  decide

/-- C5 counterexample: a trailing condition with an absent comparator is
not equivalent to removing it — the preceding scalar condition still counts
it for AND placement, leaving a dangling `AND`. -/
theorem buildOpts_trailing_skipped_cond_cex :
    buildOpts (some { whereConds := some [⟨"a", some ⟨WhereValue.scalar (SQLValue.int 1), "="⟩⟩, ⟨"b", none⟩] }) ≠ buildOpts (some { whereConds := some [⟨"a", some ⟨WhereValue.scalar (SQLValue.int 1), "="⟩⟩] }) ∧
    (buildOpts (some { whereConds := some [⟨"a", some ⟨WhereValue.scalar (SQLValue.int 1), "="⟩⟩, ⟨"b", none⟩] })).builtQuery = " WHERE a = ? AND" := by
  decide

/-- C8 counterexample: a negative limit is truthy in JS, so `buildOpts`
appends a LIMIT clause for it instead of omitting the clause. -/
theorem buildOpts_negative_limit_cex :
    (buildOpts (some { limit := some (-1) })).builtQuery = " LIMIT -1" ∧
    (buildOpts (some { limit := some (-1) })).builtQuery ≠ "" := by
  decide

/-- C2 amended: `buildOpts` applies no schema filter at all. A condition
whose column is undeclared (not contained in the schema's column list) is
still emitted — its column name appears in the SQL fragment and its value
is pushed — even though the spec's restriction to declared columns would
have dropped it. -/
theorem buildOpts_no_schema_filtering (col ty : String) (v : SQLValue) (defn : List String)
    (h : col ∉ defn) :
    (buildOpts (some { whereConds := some [⟨col, some ⟨WhereValue.scalar v, ty⟩⟩] })).builtQuery = " WHERE " ++ col ++ " " ++ ty ++ " ?" ∧
    (buildOpts (some { whereConds := some [⟨col, some ⟨WhereValue.scalar v, ty⟩⟩] })).values = [v] ∧
    declaredOnly defn [⟨col, some ⟨WhereValue.scalar v, ty⟩⟩] = [] := by
  refine ⟨?_, ?_, ?_⟩
  · simp only [buildOpts, Option.bind, mapWithIndex, condFrag, joinAll,
      String.append_empty]
    simp only [← String.append_assoc]
    rw [show (" WHERE" : String) ++ " " = " WHERE " by decide]
    simp
  · simp [buildOpts, condsValues, condValues]
  · simp [declaredOnly, List.filter_cons, h]

theorem buildOpts_no_schema_filtering_witness :
    (buildOpts (some { whereConds := some [⟨"nope", some ⟨WhereValue.scalar (SQLValue.int 1), "="⟩⟩] })).builtQuery = " WHERE " ++ "nope" ++ " " ++ "=" ++ " ?" ∧
    (buildOpts (some { whereConds := some [⟨"nope", some ⟨WhereValue.scalar (SQLValue.int 1), "="⟩⟩] })).values = [SQLValue.int 1] ∧
    declaredOnly ["id"] [⟨"nope", some ⟨WhereValue.scalar (SQLValue.int 1), "="⟩⟩] = [] :=
  buildOpts_no_schema_filtering "nope" "=" (SQLValue.int 1) ["id"] (by decide)

theorem joinAll_scalar_chain (l : List WhereCond) :
    ∀ i n, i + l.length = n → l ≠ [] →
      (∀ c ∈ l, ∃ o v, c.opt = some o ∧ o.value = WhereValue.scalar v) →
      joinAll (mapWithIndex n i l) = " " ++ joinSep " AND " (l.map scalarAtom) := by
  induction l with
  | nil => intro i n _ hne _; exact absurd rfl hne
  | cons c rest ih =>
    intro i n hlen _ h
    obtain ⟨o, v, hopt, hval⟩ := h c (List.mem_cons_self c rest)
    cases rest with
    | nil =>
      have hni : ¬ i < n - 1 := by simp at hlen; omega
      simp only [mapWithIndex, joinAll, condFrag, hopt, hval, if_neg hni, scalarAtom,
        List.map_cons, List.map_nil, joinSep, String.append_empty]
      simp [String.append_assoc]
    | cons c2 rest2 =>
      have hi : i < n - 1 := by simp at hlen; omega
      have hlen2 : (i + 1) + (c2 :: rest2).length = n := by simp at hlen ⊢; omega
      have hmem : ∀ x ∈ c2 :: rest2, ∃ o v, x.opt = some o ∧ o.value = WhereValue.scalar v :=
        fun x hx => h x (List.mem_cons_of_mem c hx)
      have hih := ih (i + 1) n hlen2 (by simp) hmem
      show condFrag n i c ++ joinAll (mapWithIndex n (i + 1) (c2 :: rest2)) =
        " " ++ joinSep " AND " (List.map scalarAtom (c :: c2 :: rest2))
      rw [hih]
      simp only [condFrag, hopt, hval, if_pos hi, List.map_cons, joinSep, scalarAtom]
      rw [and_space_append]
      simp [String.append_assoc]

/-- C3 amended: when every condition in the list is retained and
scalar-valued, the WHERE fragment is the AND-conjunction of the individual
`<column> <operator> ?` atoms in the given order. (When a retained
condition is sequence-valued and not last, no AND separator follows its
group — see the counterexample.) -/
theorem buildOpts_all_scalar_and_join (conds : List WhereCond)
    (hne : conds ≠ [])
    (h : ∀ c ∈ conds, ∃ o v, c.opt = some o ∧ o.value = WhereValue.scalar v) :
    (buildOpts (some { whereConds := some conds })).builtQuery =
      " WHERE " ++ joinSep " AND " (conds.map scalarAtom) := by
  have hchain := joinAll_scalar_chain conds 0 conds.length (by omega) hne h
  simp only [buildOpts, Option.bind, String.append_empty, hchain]
  simp only [← String.append_assoc]
  rw [show (" WHERE" : String) ++ " " = " WHERE " by decide]

theorem buildOpts_all_scalar_and_join_witness :
    (buildOpts (some { whereConds := some [⟨"a", some ⟨WhereValue.scalar (SQLValue.int 1), "="⟩⟩, ⟨"b", some ⟨WhereValue.scalar (SQLValue.int 2), ">"⟩⟩] })).builtQuery =
      " WHERE " ++ joinSep " AND " ([⟨"a", some ⟨WhereValue.scalar (SQLValue.int 1), "="⟩⟩, ⟨"b", some ⟨WhereValue.scalar (SQLValue.int 2), ">"⟩⟩].map scalarAtom) :=
  buildOpts_all_scalar_and_join _ (by simp)
    (by
      intro c hc
      rcases List.mem_cons.mp hc with h1 | h2
      · subst h1; exact ⟨_, _, rfl, rfl⟩
      · rcases List.mem_cons.mp h2 with h3 | h4
        · subst h3; exact ⟨_, _, rfl, rfl⟩
        · exact absurd h4 (List.not_mem_nil c))

/-- C5 amended: a condition with an absent comparator emits no fragment and
pushes no values, so the parameter list always equals that of the list with
the condition removed; the full output (SQL text included) equals that of
the removed list whenever the skipped condition is not in the last
position.  When it is last, the preceding scalar condition still counts it
for AND placement and a dangling `AND` remains — see the counterexample. -/
theorem buildOpts_skipped_condition_removal (l1 l2 : List WhereCond) (c : WhereCond)
    (hc : c.opt = none) :
    (buildOpts (some { whereConds := some (l1 ++ c :: l2) })).values =
      (buildOpts (some { whereConds := some (l1 ++ l2) })).values ∧
    (l2 ≠ [] → buildOpts (some { whereConds := some (l1 ++ c :: l2) }) =
      buildOpts (some { whereConds := some (l1 ++ l2) })) := by
  have hx : condValues c = [] := by simp [condValues, hc]
  have hvals : condsValues (l1 ++ c :: l2) = condsValues (l1 ++ l2) := by
    rw [condsValues_append, condsValues_append]
    simp [condsValues, hx]
  constructor
  · simpa [buildOpts] using hvals
  · intro hl2
    have hpos : 0 < l2.length := List.length_pos.mpr hl2
    have hq : joinAll (mapWithIndex (l1.length + (l2.length + 1)) 0 (l1 ++ c :: l2)) =
        joinAll (mapWithIndex (l1.length + l2.length) 0 (l1 ++ l2)) := by
      rw [mapWithIndex_append, mapWithIndex_append, joinAll_append, joinAll_append]
      have hA : mapWithIndex (l1.length + (l2.length + 1)) 0 l1 =
          mapWithIndex (l1.length + l2.length) 0 l1 :=
        mapWithIndex_congr l1 0 0 (by intro k hk; omega)
      have hB : mapWithIndex (l1.length + (l2.length + 1)) (0 + l1.length + 1) l2 =
          mapWithIndex (l1.length + l2.length) (0 + l1.length) l2 :=
        mapWithIndex_congr l2 (0 + l1.length + 1) (0 + l1.length) (by intro k hk; omega)
      show joinAll (mapWithIndex (l1.length + (l2.length + 1)) 0 l1) ++
          (condFrag (l1.length + (l2.length + 1)) (0 + l1.length) c ++
            joinAll (mapWithIndex (l1.length + (l2.length + 1)) (0 + l1.length + 1) l2)) =
        joinAll (mapWithIndex (l1.length + l2.length) 0 l1) ++
          joinAll (mapWithIndex (l1.length + l2.length) (0 + l1.length) l2)
      rw [hA, hB]
      simp [condFrag, hc, String.empty_append]
    simp only [buildOpts]
    simp [hq, hvals]

theorem buildOpts_skipped_condition_removal_witness :
    (buildOpts (some { whereConds := some ([] ++ (⟨"b", none⟩ : WhereCond) :: [⟨"a", some ⟨WhereValue.scalar (SQLValue.int 1), "="⟩⟩]) })).values =
      (buildOpts (some { whereConds := some ([] ++ [⟨"a", some ⟨WhereValue.scalar (SQLValue.int 1), "="⟩⟩]) })).values ∧
    (([⟨"a", some ⟨WhereValue.scalar (SQLValue.int 1), "="⟩⟩] : List WhereCond) ≠ [] →
      buildOpts (some { whereConds := some ([] ++ (⟨"b", none⟩ : WhereCond) :: [⟨"a", some ⟨WhereValue.scalar (SQLValue.int 1), "="⟩⟩]) }) =
        buildOpts (some { whereConds := some ([] ++ [⟨"a", some ⟨WhereValue.scalar (SQLValue.int 1), "="⟩⟩]) })) :=
  buildOpts_skipped_condition_removal [] [⟨"a", some ⟨WhereValue.scalar (SQLValue.int 1), "="⟩⟩] ⟨"b", none⟩ rfl

/-- C8 amended: an absent or zero limit emits no LIMIT clause (the whole
output equals the build with no limit at all), while a present *nonzero*
limit — negative values included, since any nonzero JS number is truthy —
appends exactly `" LIMIT <n>"` to the limit-free SQL. -/
theorem buildOpts_limit_clause (o : GetOptions) :
    ((o.limit = none ∨ o.limit = some 0) →
      buildOpts (some o) = buildOpts (some { o with limit := none })) ∧
    (∀ n : Int, o.limit = some n → n ≠ 0 →
      (buildOpts (some o)).builtQuery =
        (buildOpts (some { o with limit := none })).builtQuery ++ (" LIMIT " ++ toString n)) := by
  rcases o with ⟨wc, lim, ob⟩
  constructor
  · rintro (h | h) <;> simp only at h <;> subst h
    · rfl
    · simp [buildOpts]
  · intro n hn hz
    simp only at hn
    subst hn
    simp [buildOpts, hz, String.append_empty, String.append_assoc]

theorem buildOpts_limit_clause_witness :
    buildOpts (some ({ limit := some 0 } : GetOptions)) =
      buildOpts (some ({ limit := none } : GetOptions)) ∧
    (buildOpts (some ({ limit := some 5 } : GetOptions))).builtQuery =
      (buildOpts (some ({ limit := none } : GetOptions))).builtQuery ++
        (" LIMIT " ++ toString (5 : Int)) :=
  ⟨(buildOpts_limit_clause { limit := some 0 }).1 (Or.inr rfl),
   (buildOpts_limit_clause { limit := some 5 }).2 5 rfl (by decide)⟩

/-- C10: in the most capable variant, `update` with a non-empty set-fields
mapping whose keys are all undeclared does not raise the invalid-argument
error: the fields are filtered out, the SET list is left empty, no SET
parameters are bound, and the resulting `UPDATE <name> SET  <where-fragment>`
text is handed to the engine as-is. -/
theorem update_all_undeclared_fields (defn : List String) (name : String)
    (row : List (String × SQLValue)) (opts : Option GetOptions)
    (hne : row ≠ []) (hall : ∀ kv ∈ row, ¬ kv.1 ∈ defn) :
    update defn name row opts =
      Except.ok ("UPDATE " ++ name ++ " SET  " ++ (buildOpts opts).builtQuery,
        (buildOpts opts).values) := by
  have hfilter : row.filter (fun kv => defn.contains kv.1) = [] := by
    rw [List.filter_eq_nil_iff]
    intro kv hkv
    simp [hall kv hkv]
  have hlen : ¬ row.length = 0 := by
    cases row with
    | nil => exact absurd rfl hne
    | cons a as => simp
  simp only [update, if_neg hlen, hfilter, List.map_nil, joinSep, String.append_empty,
    List.nil_append]
  rw [show ("UPDATE " ++ name ++ " SET ") ++ " " = "UPDATE " ++ name ++ " SET  " by
    rw [String.append_assoc, show (" SET " : String) ++ " " = " SET  " by decide]]

theorem update_all_undeclared_fields_witness :
    update ["id"] "user" [("nope", SQLValue.int 1)] none =
      Except.ok ("UPDATE " ++ "user" ++ " SET  " ++ (buildOpts none).builtQuery,
        (buildOpts none).values) :=
  update_all_undeclared_fields ["id"] "user" [("nope", SQLValue.int 1)] none (by simp)
    (by
      intro kv hkv
      rw [List.mem_singleton] at hkv
      subst hkv
      decide)

end FeatherDB
